import Mathlib

/-!
Verification of the vkworkspace event-dispatch core.

A shallow embedding, in Lean 4, of the event-dispatch core of the
`vkworkspace` chat-bot framework: the Handler/Filter matching protocol
(`dispatcher/event/handler.py`), the Observer trigger loop
(`dispatcher/event/observer.py`), Router propagation and registration
(`dispatcher/router.py`), the error middleware
(`dispatcher/middlewares/error.py`), the FSM context and in-memory storage
(`fsm/context.py`, `fsm/storage/memory.py`), and the FSM slice of
`Dispatcher.feed_update` (`dispatcher/dispatcher.py`).

Python runtime values that flow through filters and handlers are modelled by
the inductive type `Val`; keyword-argument dictionaries by insertion-ordered
association lists; exceptions by `PyExc`; coroutines are evaluated to their
results, so an `async` Python function becomes a pure Lean function returning
`Except PyExc _`.
-/

namespace VKW

/-- Python runtime values relevant to the dispatch core: `None`, booleans,
integers, strings, and string-keyed dictionaries. -/
inductive Val where
  | pynone : Val
  | pybool : Bool → Val
  | pyint : Int → Val
  | pystr : String → Val
  | pydict : List (String × Val) → Val

/-- Python truthiness (`bool(x)`) for the values of `Val`. -/
def truthy : Val → Bool
  | .pynone => false
  | .pybool b => b
  | .pyint n => n != 0
  | .pystr s => s != ""
  | .pydict d => !d.isEmpty

/-- A Python `dict[str, Any]`, as an insertion-ordered association list with
unique keys maintained by `dset`. -/
abbrev Dict := List (String × Val)

/-- Assignment `d[k] = v` on a Python dict: replace in place when the key
exists, append otherwise. -/
def dset (d : Dict) (k : String) (v : Val) : Dict :=
  match d with
  | [] => [(k, v)]
  | (k0, v0) :: rest => if k0 = k then (k0, v) :: rest else (k0, v0) :: dset rest k v

/-- The method `d.update(src)` on a Python dict: fold `dset` over the entries
of `src`. -/
def dupdate (d : Dict) (src : Dict) : Dict :=
  src.foldl (fun acc p => dset acc p.1 p.2) d

/-- The method `d.get(k)` on a Python dict. -/
def dget (d : Dict) (k : String) : Option Val :=
  (d.find? (fun p => p.1 = k)).map Prod.snd

/-- Exceptions that can cross the dispatch core: the two flow-control
signals `SkipHandler` and `CancelHandler` from `dispatcher/event/bases.py`,
and any other exception, identified by its payload value. -/
inductive PyExc where
  | skipSignal : PyExc
  | cancelSignal : PyExc
  | other : Val → PyExc

/-- The result of `EventObserver.trigger` / `Router.propagate_event`: either
the distinguished `UNHANDLED` sentinel of `dispatcher/event/bases.py` or a
handler's return value.  The sentinel is a separate constructor, hence
distinct from every `Val` including `Val.pynone` (Python `None`). -/
inductive TrigResult where
  | unhandled : TrigResult
  | value : Val → TrigResult

/-- The class `FilterObject` from `dispatcher/event/handler.py`, abstracted to the
result of its `check` coroutine: a function from the event and the current
kwargs to the value the filter returns. -/
structure FilterObject where
  check : Val → Dict → Val

/-- The class `HandlerObject` from `dispatcher/event/handler.py`: the callback (whose
body may raise), the filter list (`register` stores `None` for an empty
filter tuple; both read back as the empty list here), and the precomputed
`_params` / `_has_kwargs` signature data. -/
structure HandlerObject where
  callback : Val → Dict → Except PyExc Val
  filters : List FilterObject
  params : List String
  hasVarKw : Bool

/-- The filter loop of `HandlerObject.check`:
`if result is False` aborts with `False`; a `dict` result is merged into the
accumulating kwargs via `kwargs.update(result)`; otherwise
`result is not True and result is not None and not result` aborts with
`False`; in every remaining case the loop continues.  The Python identity
tests `is False` / `is True` / `is None` become constructor matches. -/
def checkLoop : List FilterObject → Val → Dict → Bool × Dict
  | [], _, kwargs => (true, kwargs)
  | f :: rest, event, kwargs =>
    match f.check event kwargs with
    | .pybool false => (false, kwargs)
    | .pydict d => checkLoop rest event (dupdate kwargs d)
    | .pybool true => checkLoop rest event kwargs
    | .pynone => checkLoop rest event kwargs
    | result => if truthy result then checkLoop rest event kwargs else (false, kwargs)

/-- The method `HandlerObject.check`: `if not self.filters: return True,
kwargs`, then
the filter loop. -/
def HandlerObject.check (h : HandlerObject) (event : Val) (kwargs : Dict) : Bool × Dict :=
  if h.filters.isEmpty then (true, kwargs)
  else checkLoop h.filters event kwargs

/-- The method `HandlerObject.call`: pass every kwarg through when the
callback takes
`**kwargs`, otherwise restrict to the declared parameter names. -/
def HandlerObject.call (h : HandlerObject) (event : Val) (kwargs : Dict) : Except PyExc Val :=
  if h.hasVarKw then h.callback event kwargs
  else h.callback event (kwargs.filter (fun p => h.params.contains p.1))

/-- The method `EventObserver.trigger` from `dispatcher/event/observer.py`:
probe the
handlers in registration order; each iteration checks against a fresh copy
of the incoming kwargs (`kwargs_copy = dict(kwargs)`), which in this pure
model means the recursive calls receive the original `kwargs`; on a match
run the handler; `SkipHandler` continues the loop, `CancelHandler` breaks
out (falling through to `return UNHANDLED`), any other exception escapes;
a falsy check moves to the next handler; an exhausted loop returns
`UNHANDLED`. -/
def trigger (handlers : List HandlerObject) (event : Val) (kwargs : Dict) :
    Except PyExc TrigResult :=
  match handlers with
  | [] => .ok .unhandled
  | handler :: rest =>
    let checked := handler.check event kwargs
    if checked.fst then
      match handler.call event checked.snd with
      | .ok v => .ok (.value v)
      | .error .skipSignal => trigger rest event kwargs
      | .error .cancelSignal => .ok .unhandled
      | .error (.other e) => .error (.other e)
    else trigger rest event kwargs

/-- The type of the wrapped call a middleware receives and produces. -/
abbrev NextCall := Val → Dict → Except PyExc TrigResult

/-- The interface `BaseMiddleware.__call__`, abstracted: a function of the
next call. -/
abbrev Middleware := NextCall → NextCall

/-- The class `EventObserver`: the registered handler list plus the
observer-local
middleware chain (`self.middleware.middlewares`). -/
structure EventObserver where
  handlers : List HandlerObject
  middlewares : List Middleware

/-- The wrapping loop shared by `EventObserver.propagate` and
`Router.propagate_event`: `wrapped = inner` then
`for mw in reversed(middlewares): wrapped = make_wrapper(mw, wrapped)`,
which leaves the first-registered middleware outermost. -/
def wrapMiddlewares (mws : List Middleware) (inner : NextCall) : NextCall :=
  mws.foldr (fun mw acc => mw acc) inner

/-- A `Router` from `dispatcher/router.py`: its name, its `observers`
dictionary mapping event-category names to observers, and its
`_sub_routers` list in registration order. -/
inductive Router where
  | node : String → List (String × EventObserver) → List Router → Router

/-- The `observers` dict of a router. -/
def Router.observers : Router → List (String × EventObserver)
  | .node _ obs _ => obs

/-- The `_sub_routers` list of a router. -/
def Router.subRouters : Router → List Router
  | .node _ _ subs => subs

/-- The lookup `self.observers.get(update_type)`. -/
def lookupObserver (obs : List (String × EventObserver)) (updateType : String) :
    Option EventObserver :=
  (obs.find? (fun p => p.1 = updateType)).map Prod.snd

mutual

/-- The method `Router.propagate_event`: look up the observer for the category
(`UNHANDLED` when absent); the depth-first `_inner` runs this router's own
`observer.trigger` first, returns any non-`UNHANDLED` result, and otherwise
tries the sub-routers in registration order; `_inner` is wrapped by this
observer's middleware chain before being applied to the event and kwargs. -/
def Router.propagate_event : Router → String → Val → Dict → Except PyExc TrigResult
  | .node _ observers subs, updateType, event, kwargs =>
    match lookupObserver observers updateType with
    | none => .ok .unhandled
    | some observer =>
      wrapMiddlewares observer.middlewares
        (fun ev data =>
          match trigger observer.handlers ev data with
          | .error e => .error e
          | .ok (.value v) => .ok (.value v)
          | .ok .unhandled => propagateSubs subs updateType ev data)
        event kwargs

/-- The `for sub_router in sub_routers` loop inside `_inner`: recursively
propagate into each child, stopping at the first non-`UNHANDLED` result. -/
def propagateSubs : List Router → String → Val → Dict → Except PyExc TrigResult
  | [], _, _, _ => .ok .unhandled
  | sub :: rest, updateType, event, kwargs =>
    match sub.propagate_event updateType event kwargs with
    | .error e => .error e
    | .ok (.value v) => .ok (.value v)
    | .ok .unhandled => propagateSubs rest updateType event kwargs

end

/-- The method `ErrorsMiddleware.__call__` from
`dispatcher/middlewares/error.py`: run the wrapped call; re-raise the
`SkipHandler` / `CancelHandler` flow-control signals untouched; for any
other exception propagate an `"error"`-category event carrying the
exception through the owning router, return that result when it is not
`UNHANDLED`, and re-raise the original exception otherwise. -/
def errorsMiddlewareCall (router : Router) (handler : NextCall) (event : Val)
    (data : Dict) : Except PyExc TrigResult :=
  match handler event data with
  | .ok r => .ok r
  | .error .skipSignal => .error .skipSignal
  | .error .cancelSignal => .error .cancelSignal
  | .error (.other e) =>
    match router.propagate_event "error" e data with
    | .error e2 => .error e2
    | .ok (.value v) => .ok (.value v)
    | .ok .unhandled => .error (.other e)

/-- The router-wiring state mutated by `Router.include_router`: the
`_parent_router` field and the `_sub_routers` list of every router, with
routers identified by numeric ids. -/
structure RouterGraph where
  parent : Nat → Option Nat
  subs : Nat → List Nat

/-- The state of a set of freshly constructed routers: no parents, no
sub-routers. -/
def RouterGraph.initial : RouterGraph :=
  { parent := fun _ => none, subs := fun _ => [] }

/-- The method `Router.include_router`: raise (modelled as `none`) when the
child already has a parent, otherwise set the child's `_parent_router` to
this router and append the child to this router's `_sub_routers`. -/
def includeRouter (g : RouterGraph) (self child : Nat) : Option RouterGraph :=
  match g.parent child with
  | some _ => none
  | none =>
    some { parent := fun n => if n = child then some self else g.parent n,
           subs := fun n => if n = self then g.subs n ++ [child] else g.subs n }

/-- A sequence of `include_router` calls, each written `(self, child)`;
a raise aborts the rest of the sequence. -/
def runIncludes : List (Nat × Nat) → RouterGraph → Option RouterGraph
  | [], g => some g
  | (p, c) :: rest, g =>
    match includeRouter g p c with
    | none => none
    | some g2 => runIncludes rest g2

/-- Iterated `_parent_router` lookup: the ancestor of `n` at distance `k`. -/
def parentIter (g : RouterGraph) : Nat → Nat → Option Nat
  | 0, n => some n
  | k + 1, n => (g.parent n).bind (parentIter g k)

/-- The class `StorageKey` from `fsm/storage/base.py`: a frozen value-equal
4-tuple of bot identity, chat id, user id and destiny. -/
structure StorageKey where
  botId : String
  chatId : String
  userId : String
  destiny : String := "default"
deriving DecidableEq

/-- The class `_StorageRecord` from `fsm/storage/memory.py`: a nullable
state string and a data bag, both defaulted. -/
structure StorageRecord where
  state : Option String := none
  data : Dict := []

/-- The `_storage` dict of `MemoryStorage`, as an association list. -/
abbrev MemoryStorage := List (StorageKey × StorageRecord)

/-- A `defaultdict(_StorageRecord)` read: the record stored under `k`, or a
fresh default record when absent. -/
def getRecord (s : MemoryStorage) (k : StorageKey) : StorageRecord :=
  ((s.find? (fun p => p.1 = k)).map Prod.snd).getD {}

/-- Store a record under a key, replacing any existing one. -/
def putRecord (s : MemoryStorage) (k : StorageKey) (r : StorageRecord) :
    MemoryStorage :=
  match s with
  | [] => [(k, r)]
  | (k0, r0) :: rest => if k0 = k then (k0, r) :: rest else (k0, r0) :: putRecord rest k r

/-- The method `MemoryStorage.set_state`: `self._storage[key].state = state`. -/
def MemoryStorage.set_state (s : MemoryStorage) (k : StorageKey)
    (st : Option String) : MemoryStorage :=
  putRecord s k { getRecord s k with state := st }

/-- The method `MemoryStorage.get_state`: `return self._storage[key].state`. -/
def MemoryStorage.get_state (s : MemoryStorage) (k : StorageKey) : Option String :=
  (getRecord s k).state

/-- The method `MemoryStorage.set_data`:
`self._storage[key].data = data.copy()` — in this value-level model the
copy is a snapshot of the argument's entries (aliasing is studied separately
in the heap-level model below). -/
def MemoryStorage.set_data (s : MemoryStorage) (k : StorageKey) (d : Dict) :
    MemoryStorage :=
  putRecord s k { getRecord s k with data := d }

/-- The method `MemoryStorage.get_data`:
`return self._storage[key].data.copy()`. -/
def MemoryStorage.get_data (s : MemoryStorage) (k : StorageKey) : Dict :=
  (getRecord s k).data

/-- The method `MemoryStorage.close`: `self._storage.clear()`. -/
def MemoryStorage.close (_ : MemoryStorage) : MemoryStorage := []

/-- A `State` slot assigned inside a `StatesGroup` (`fsm/state.py`): the
metaclass sets `_group` to the defining class and `_state_name` to the
attribute name. -/
structure StateSlot where
  group : String
  name : String

/-- The property `State.state`: the canonical string
`"<GroupName>:<slotName>"`. -/
def StateSlot.state (s : StateSlot) : String := s.group ++ ":" ++ s.name

/-- The argument accepted by `FSMContext.set_state`: a `State` object, a raw
string, or `None`. -/
inductive StateArg where
  | stateObj : StateSlot → StateArg
  | rawStr : String → StateArg
  | noneArg : StateArg

/-- The conversion in `FSMContext.set_state`:
`state.state if isinstance(state, State) else state`. -/
def stateArgToStr : StateArg → Option String
  | .stateObj s => some s.state
  | .rawStr s => some s
  | .noneArg => none

/-- The method `FSMContext.set_state` bound to storage `s` and key `k`. -/
def FSMContext.set_state (s : MemoryStorage) (k : StorageKey) (arg : StateArg) :
    MemoryStorage :=
  MemoryStorage.set_state s k (stateArgToStr arg)

/-- The method `FSMContext.get_state`. -/
def FSMContext.get_state (s : MemoryStorage) (k : StorageKey) : Option String :=
  MemoryStorage.get_state s k

/-- The method `FSMContext.set_data`. -/
def FSMContext.set_data (s : MemoryStorage) (k : StorageKey) (d : Dict) :
    MemoryStorage :=
  MemoryStorage.set_data s k d

/-- The method `FSMContext.get_data`. -/
def FSMContext.get_data (s : MemoryStorage) (k : StorageKey) : Dict :=
  MemoryStorage.get_data s k

/-- The method `FSMContext.update_data`: read, merge, write, and return the
merged mapping. -/
def FSMContext.update_data (s : MemoryStorage) (k : StorageKey) (kw : Dict) :
    MemoryStorage × Dict :=
  let merged := dupdate (FSMContext.get_data s k) kw
  (FSMContext.set_data s k merged, merged)

/-- The method `FSMContext.clear`: `set_state(None)` then `set_data({})`. -/
def FSMContext.clear (s : MemoryStorage) (k : StorageKey) : MemoryStorage :=
  FSMContext.set_data (FSMContext.set_state s k .noneArg) k []

/-- Lookup in the `_fsm_timestamps` dict of the `Dispatcher`. -/
def tlookup (ts : List (StorageKey × ℚ)) (k : StorageKey) : Option ℚ :=
  (ts.find? (fun p => p.1 = k)).map Prod.snd

/-- Assignment `self._fsm_timestamps[key] = now`. -/
def tset (ts : List (StorageKey × ℚ)) (k : StorageKey) (v : ℚ) :
    List (StorageKey × ℚ) :=
  match ts with
  | [] => [(k, v)]
  | (k0, v0) :: rest => if k0 = k then (k0, v) :: rest else (k0, v0) :: tset rest k v

/-- Deletion `del self._fsm_timestamps[key]` (no-op when absent, used only
where the source has checked presence). -/
def terase (ts : List (StorageKey × ℚ)) (k : StorageKey) :
    List (StorageKey × ℚ) :=
  ts.filter (fun p => p.1 ≠ k)

/-- The FSM configuration and mutable FSM state of a `Dispatcher`:
`self.storage`, `self.session_timeout` and `self._fsm_timestamps`.
Monotonic-clock readings (`time.monotonic()`) are modelled as rationals. -/
structure DispatcherFSM where
  storage : MemoryStorage
  sessionTimeout : Option ℚ
  fsmTimestamps : List (StorageKey × ℚ)

/-- The session-timeout block of `Dispatcher.feed_update` (the code between
computing `current_state` and the `propagate_event` call): when a state is
present, a timeout is configured, a timestamp is tracked for the key, and
`now - timestamp > timeout`, clear the FSM record, delete the timestamp and
set `current_state` to `None`.  Returns the storage, the timestamp map and
the `current_state` value exactly as they stand when `propagate_event` is
invoked. -/
def sessionCheck (d : DispatcherFSM) (key : StorageKey) (now : ℚ) :
    MemoryStorage × List (StorageKey × ℚ) × Option String :=
  let currentState := MemoryStorage.get_state d.storage key
  match currentState, d.sessionTimeout, tlookup d.fsmTimestamps key with
  | some st, some timeout, some ts =>
    if now - ts > timeout then
      (FSMContext.clear d.storage key, terase d.fsmTimestamps key, none)
    else (d.storage, d.fsmTimestamps, some st)
  | _, _, _ => (d.storage, d.fsmTimestamps, currentState)

/-- The observable outcome of the FSM slice of `feed_update`:
`injectedState` and `storageAtHandler` record the `current_state` kwarg and
the storage exactly as passed to handler propagation; `storage` and
`fsmTimestamps` are the dispatcher state after the post-dispatch timestamp
bookkeeping. -/
structure FeedOutcome where
  injectedState : Option String
  storageAtHandler : MemoryStorage
  storage : MemoryStorage
  fsmTimestamps : List (StorageKey × ℚ)

/-- The FSM slice of `Dispatcher.feed_update` for an event whose storage key
is `key`: run the session-timeout check, invoke handler propagation
(abstracted as `handler`, which sees the injected `current_state` and may
rewrite storage through the FSM context), then re-read the stored state and
stamp or drop the tracked timestamp. -/
def feedUpdateFSM (d : DispatcherFSM) (key : StorageKey) (now now2 : ℚ)
    (handler : Option String → MemoryStorage → MemoryStorage) : FeedOutcome :=
  let pre := sessionCheck d key now
  let storage2 := handler pre.2.2 pre.1
  let timestamps2 :=
    match d.sessionTimeout with
    | none => pre.2.1
    | some _ =>
      match MemoryStorage.get_state storage2 key with
      | some _ => tset pre.2.1 key now2
      | none => terase pre.2.1 key
  { injectedState := pre.2.2, storageAtHandler := pre.1,
    storage := storage2, fsmTimestamps := timestamps2 }

/-- The `fsm_strategy` constructor argument of `Dispatcher`, stored as
`self.fsm_strategy`. -/
structure DispatcherCfg where
  fsmStrategy : String

/-- The storage-key derivation inlined in `Dispatcher.feed_update`: guard
`if chat_id or user_id`, then
`StorageKey(bot_id=bot.token[:16], chat_id=chat_id, user_id=user_id)`.
The dispatcher's `fsm_strategy` attribute is not consulted anywhere in
`feed_update` (nor elsewhere in `dispatcher.py`), which this definition
reflects by ignoring `cfg`. -/
def feedUpdateKey (_cfg : DispatcherCfg) (token chatId userId : String) :
    Option StorageKey :=
  if chatId ≠ "" ∨ userId ≠ "" then
    some { botId := token.take 16, chatId := chatId, userId := userId }
  else none

/-- The enum `FSMStrategy` from `fsm/strategy.py`. -/
inductive FSMStrategy where
  | userInChat : FSMStrategy
  | chat : FSMStrategy
  | globalUser : FSMStrategy

/-- The method `FSMContextMiddleware._build_key` from
`dispatcher/middlewares/fsm_context.py`: `None` when both ids are falsy;
otherwise a key whose populated fields depend on the configured strategy. -/
def buildKey (strategy : FSMStrategy) (token : Option String)
    (chatId userId : Option String) : Option StorageKey :=
  let cid := chatId.getD ""
  let uid := userId.getD ""
  if cid = "" ∧ uid = "" then none
  else
    let bid := match token with
      | some t => t.take 16
      | none => "unknown"
    match strategy with
    | .userInChat => some { botId := bid, chatId := cid, userId := uid }
    | .chat => some { botId := bid, chatId := cid, userId := "" }
    | .globalUser => some { botId := bid, chatId := "", userId := uid }

/-- A heap of Python dict objects, for the aliasing analysis of
`MemoryStorage.get_data` / `set_data`: an address is an index into `cells`. -/
structure MemHeap where
  cells : List Dict

/-- Allocate a new dict object with the given contents (what `d.copy()`
does), returning its address. -/
def MemHeap.alloc (h : MemHeap) (c : Dict) : MemHeap × Nat :=
  ({ cells := h.cells ++ [c] }, h.cells.length)

/-- The contents of the dict object at address `a`. -/
def MemHeap.read (h : MemHeap) (a : Nat) : Dict :=
  h.cells.getD a []

/-- Overwrite the dict object at address `a`. -/
def MemHeap.write (h : MemHeap) (a : Nat) (c : Dict) : MemHeap :=
  { cells := h.cells.set a c }

/-- An in-place caller-side mutation `d[k] = v` of the dict object at
address `a`. -/
def MemHeap.mutate (h : MemHeap) (a : Nat) (k : String) (v : Val) : MemHeap :=
  h.write a (dset (h.read a) k v)

/-- The data bag of one `MemoryStorage` record at the heap level: the
record's `data` attribute is a reference to a dict object. -/
structure DataBagH where
  heap : MemHeap
  dataAddr : Nat

/-- Heap-level `MemoryStorage.get_data`:
`return self._storage[key].data.copy()` — allocate a fresh dict with the
stored contents and hand its address to the caller. -/
def DataBagH.get_data (s : DataBagH) : DataBagH × Nat :=
  let allocated := s.heap.alloc (s.heap.read s.dataAddr)
  ({ s with heap := allocated.1 }, allocated.2)

/-- Heap-level `MemoryStorage.set_data`:
`self._storage[key].data = data.copy()` — the record's `data` field becomes
a freshly allocated dict with the contents of the caller's argument. -/
def DataBagH.set_data (s : DataBagH) (a : Nat) : DataBagH :=
  let allocated := s.heap.alloc (s.heap.read a)
  { heap := allocated.1, dataAddr := allocated.2 }

/-! Concrete instances used to exercise the theorems below on executable
inputs. -/

/-- A concrete event value. -/
def demoEvent : Val := .pystr "evt"

/-- A filter whose check returns `False`. -/
def filterFalse : FilterObject := ⟨fun _ _ => .pybool false⟩

/-- A filter whose check returns `True`. -/
def filterTrue : FilterObject := ⟨fun _ _ => .pybool true⟩

/-- A filter whose check returns `None`. -/
def filterNone : FilterObject := ⟨fun _ _ => .pynone⟩

/-- A filter whose check returns the falsy non-mapping value `0`. -/
def filterZero : FilterObject := ⟨fun _ _ => .pyint 0⟩

/-- A filter whose check returns the mapping `{"x": 1}`. -/
def filterInject : FilterObject := ⟨fun _ _ => .pydict [("x", .pyint 1)]⟩

/-- A handler returning the string `s`, guarded by the given filters. -/
def handlerConst (s : String) (fs : List FilterObject) : HandlerObject :=
  { callback := fun _ _ => .ok (.pystr s), filters := fs, params := [],
    hasVarKw := true }

/-- A handler whose body raises, guarded by the given filters. -/
def handlerRaise (e : PyExc) (fs : List FilterObject) : HandlerObject :=
  { callback := fun _ _ => .error e, filters := fs, params := [],
    hasVarKw := true }

/-- An observer with the given handlers and no middleware. -/
def obsOf (hs : List HandlerObject) : EventObserver :=
  { handlers := hs, middlewares := [] }

/-- A child router whose `message` observer has one unconditional handler
returning `"pong"`. -/
def childRouter : Router :=
  .node "child" [("message", obsOf [handlerConst "pong" []])] []

/-- A root router with no own `message` handlers and `childRouter` as its
only sub-router. -/
def rootRouter : Router :=
  .node "root" [("message", obsOf [])] [childRouter]

/-- A router whose `error` observer has one unconditional handler returning
`"recovered"`. -/
def errDemoRouter : Router :=
  .node "errdemo" [("error", obsOf [handlerConst "recovered" []])] []

/-- The wiring state after the single call `router0.include_router(router1)`. -/
def demoGraph : RouterGraph :=
  { parent := fun n => if n = 1 then some 0 else none,
    subs := fun n => if n = 0 then [1] else [] }

/-- A concrete FSM storage key. -/
def demoKey : StorageKey := { botId := "bot", chatId := "c1", userId := "u1" }

/-- A dispatcher FSM state with a 5-unit session timeout, a stored state and
data bag under `demoKey`, and a last-touch timestamp of 0. -/
def demoFSM : DispatcherFSM :=
  { storage := [(demoKey, { state := some "Form:name", data := [("a", .pyint 1)] })],
    sessionTimeout := some 5,
    fsmTimestamps := [(demoKey, 0)] }

/-- A heap-level data bag: one stored dict `{"a": 1}` at address 0. -/
def demoBag : DataBagH :=
  { heap := { cells := [[("a", .pyint 1)]] }, dataAddr := 0 }

/-! Theorems. -/

/-- Wrapping with an empty middleware chain is the identity. -/
theorem wrapMiddlewares_nil (inner : NextCall) :
    wrapMiddlewares [] inner = inner := rfl

/-- In the sub-router loop, the first child to yield a non-`UNHANDLED` value
wins, whatever comes after it. -/
theorem propagateSubs_first (cs1 : List Router) (c : Router) (cs3 : List Router)
    (cat : String) (ev : Val) (kw : Dict) (v : Val)
    (hall : ∀ c2 ∈ cs1, c2.propagate_event cat ev kw = .ok .unhandled)
    (hc : c.propagate_event cat ev kw = .ok (.value v)) :
    propagateSubs (cs1 ++ c :: cs3) cat ev kw = .ok (.value v) := by
  induction cs1 with
  | nil => simp [propagateSubs, hc]
  | cons c2 t ih =>
    have h2 : c2.propagate_event cat ev kw = .ok .unhandled := hall c2 (by simp)
    have ht := ih (fun c3 hm => hall c3 (by simp [hm]))
    simp [propagateSubs, h2, ht]

/-- If every child yields `UNHANDLED`, the sub-router loop yields
`UNHANDLED`. -/
theorem propagateSubs_unhandled (cs : List Router) (cat : String) (ev : Val)
    (kw : Dict)
    (hall : ∀ c ∈ cs, c.propagate_event cat ev kw = .ok .unhandled) :
    propagateSubs cs cat ev kw = .ok .unhandled := by
  induction cs with
  | nil => rfl
  | cons c t ih =>
    have h2 : c.propagate_event cat ev kw = .ok .unhandled := hall c (by simp)
    have ht := ih (fun c3 hm => hall c3 (by simp [hm]))
    simp [propagateSubs, h2, ht]

/-- Claim C1: for a router with no middleware registered on the observer of
the category, `propagate_event` returns `UNHANDLED` immediately when the
category has no observer; it returns its own observer's non-`UNHANDLED`
trigger result regardless of the sub-routers (so no child is consulted);
when its own trigger yields `UNHANDLED`, the first sub-router in
registration order to yield a non-`UNHANDLED` result wins regardless of the
children after it (so iteration stops); and when its own trigger and every
child yield `UNHANDLED` the whole call yields `UNHANDLED`. -/
theorem propagate_event_spec (name : String)
    (observers : List (String × EventObserver)) (subs : List Router)
    (cat : String) (ev : Val) (kw : Dict) :
    (lookupObserver observers cat = none →
      (Router.node name observers subs).propagate_event cat ev kw = .ok .unhandled)
    ∧ (∀ o, lookupObserver observers cat = some o → o.middlewares = [] →
        ((∀ v, trigger o.handlers ev kw = .ok (.value v) →
            ∀ subs2, (Router.node name observers subs2).propagate_event cat ev kw =
              .ok (.value v))
         ∧ (trigger o.handlers ev kw = .ok .unhandled →
            ∀ cs1 c cs3 v,
              (∀ c2 ∈ cs1, c2.propagate_event cat ev kw = .ok .unhandled) →
              c.propagate_event cat ev kw = .ok (.value v) →
              (Router.node name observers
                  (cs1 ++ c :: cs3)).propagate_event cat ev kw = .ok (.value v))
         ∧ (trigger o.handlers ev kw = .ok .unhandled →
            (∀ c ∈ subs, c.propagate_event cat ev kw = .ok .unhandled) →
            (Router.node name observers subs).propagate_event cat ev kw =
              .ok .unhandled))) := by
  constructor
  · intro hlook
    simp [Router.propagate_event, hlook]
  · intro o hlook hmw
    refine ⟨?_, ?_, ?_⟩
    · intro v htr subs2
      simp [Router.propagate_event, hlook, hmw, wrapMiddlewares, htr]
    · intro htr cs1 c cs3 v hall hc
      simp [Router.propagate_event, hlook, hmw, wrapMiddlewares, htr]
      exact propagateSubs_first cs1 c cs3 cat ev kw v hall hc
    · intro htr hall
      simp [Router.propagate_event, hlook, hmw, wrapMiddlewares, htr]
      exact propagateSubs_unhandled subs cat ev kw hall

/-- Witness for C1: a root router with no own `message` handlers delegates
to its child, whose handler answers `"pong"`. -/
theorem propagate_event_spec_witness :
    rootRouter.propagate_event "message" demoEvent [] =
      .ok (.value (.pystr "pong")) := by
  have h := ((propagate_event_spec "root" [("message", obsOf [])] [childRouter]
    "message" demoEvent []).2 (obsOf []) rfl rfl).2.1 rfl [] childRouter []
    (.pystr "pong") (by simp) (by rfl)
  simpa [rootRouter] using h

/-- Claim C2: `EventObserver.trigger` probes handlers in registration order,
each against the original kwargs (the per-handler `dict(kwargs)` copy, so
filter-injected values never leak across handlers); the first handler whose
check matches has its result returned and later handlers are never invoked
(the result is independent of them); a body raising the skip signal makes
the loop continue as if the handler had not matched; a body raising the
cancel signal stops probing and yields `UNHANDLED` regardless of the
remaining handlers; and when no handler matches the result is the
distinguished `UNHANDLED` sentinel, which is distinct from a handler
returning `None`. -/
theorem trigger_spec (h : HandlerObject) (rest : List HandlerObject)
    (event : Val) (kwargs : Dict) :
    (trigger [] event kwargs = .ok .unhandled)
    ∧ (TrigResult.unhandled ≠ TrigResult.value Val.pynone)
    ∧ ((h.check event kwargs).fst = false →
        trigger (h :: rest) event kwargs = trigger rest event kwargs)
    ∧ (∀ v, (h.check event kwargs).fst = true →
        h.call event (h.check event kwargs).snd = .ok v →
        ∀ rest2, trigger (h :: rest2) event kwargs = .ok (.value v))
    ∧ ((h.check event kwargs).fst = true →
        h.call event (h.check event kwargs).snd = .error .skipSignal →
        trigger (h :: rest) event kwargs = trigger rest event kwargs)
    ∧ ((h.check event kwargs).fst = true →
        h.call event (h.check event kwargs).snd = .error .cancelSignal →
        ∀ rest2, trigger (h :: rest2) event kwargs = .ok .unhandled)
    ∧ (∀ hs : List HandlerObject, (∀ h2 ∈ hs, (h2.check event kwargs).fst = false) →
        trigger hs event kwargs = .ok .unhandled) := by
  refine ⟨rfl, by simp, ?_, ?_, ?_, ?_, ?_⟩
  · intro hc
    simp [trigger, hc]
  · intro v hc hcall rest2
    simp [trigger, hc, hcall]
  · intro hc hcall
    simp [trigger, hc, hcall]
  · intro hc hcall rest2
    simp [trigger, hc, hcall]
  · intro hs hall
    induction hs with
    | nil => rfl
    | cons h2 t ih =>
      have hcf : (h2.check event kwargs).fst = false := hall h2 (by simp)
      have ht : trigger t event kwargs = .ok .unhandled :=
        ih (fun h3 hm => hall h3 (by simp [hm]))
      simp [trigger, hcf, ht]

/-- Witness for C2: with handlers `[A (filter False), B, C]` the trigger
loop skips the non-matching `A` and returns `B`'s result. -/
theorem trigger_spec_witness :
    trigger [handlerConst "A" [filterFalse], handlerConst "B" [],
      handlerConst "C" []] demoEvent [] = .ok (.value (.pystr "B")) := by
  have h1 := (trigger_spec (handlerConst "A" [filterFalse])
    [handlerConst "B" [], handlerConst "C" []] demoEvent []).2.2.1 (by rfl)
  have h2 := (trigger_spec (handlerConst "B" []) [] demoEvent
    []).2.2.2.1 (.pystr "B") (by rfl) (by rfl) [handlerConst "C" []]
  rw [h1, h2]

/-- Counterexample to C3 as stated: a filter returning `None` does not abort
the chain — `HandlerObject.check` explicitly exempts `None`
(`result is not None` in the abort condition), so the handler matches. -/
theorem handler_check_none_counterexample :
    (handlerConst "x" [filterNone]).check demoEvent [] = (true, []) ∧
    ((true, ([] : Dict)) ≠ ((false, ([] : Dict)) : Bool × Dict)) := by
  exact ⟨rfl, by simp⟩

/-- Claim C3 (amended): `HandlerObject.check` returns `(True, kwargs)`
unchanged when there are no filters; a filter result of `False` or of any
falsy non-mapping value other than `None` aborts immediately with `False`;
a mapping result is merged into the accumulating kwargs and evaluation
continues; any truthy non-mapping result continues without merging; and a
`None` result also continues without merging (the deviation from the claim
as stated). -/
theorem handler_check_spec (h : HandlerObject) (f : FilterObject)
    (rest : List FilterObject) (event : Val) (kwargs : Dict) :
    (h.check event kwargs = checkLoop h.filters event kwargs)
    ∧ (h.filters = [] → h.check event kwargs = (true, kwargs))
    ∧ (f.check event kwargs = .pybool false →
        checkLoop (f :: rest) event kwargs = (false, kwargs))
    ∧ (∀ d, f.check event kwargs = .pydict d →
        checkLoop (f :: rest) event kwargs = checkLoop rest event (dupdate kwargs d))
    ∧ (f.check event kwargs = .pynone →
        checkLoop (f :: rest) event kwargs = checkLoop rest event kwargs)
    ∧ (truthy (f.check event kwargs) = true →
        (∀ d, f.check event kwargs ≠ .pydict d) →
        checkLoop (f :: rest) event kwargs = checkLoop rest event kwargs)
    ∧ (truthy (f.check event kwargs) = false →
        (∀ d, f.check event kwargs ≠ .pydict d) →
        f.check event kwargs ≠ .pynone →
        f.check event kwargs ≠ .pybool false →
        checkLoop (f :: rest) event kwargs = (false, kwargs)) := by
  refine ⟨?_, ?_, ?_, ?_, ?_, ?_, ?_⟩
  · unfold HandlerObject.check
    cases hfs : h.filters <;> simp [checkLoop]
  · intro hfs
    unfold HandlerObject.check
    simp [hfs]
  · intro hf
    simp [checkLoop, hf]
  · intro d hf
    simp [checkLoop, hf]
  · intro hf
    simp [checkLoop, hf]
  · intro htru hnd
    rcases hf : f.check event kwargs with _ | b | n | s | d
    · rw [hf] at htru
      simp [truthy] at htru
    · cases b
      · rw [hf] at htru
        simp [truthy] at htru
      · simp [checkLoop, hf]
    · rw [hf] at htru
      have hn : ¬n = 0 := by simpa [truthy] using htru
      simp [checkLoop, hf, truthy, hn]
    · rw [hf] at htru
      have hs : ¬s = "" := by simpa [truthy] using htru
      simp [checkLoop, hf, truthy, hs]
    · exact absurd hf (hnd d)
  · intro htru hnd hnn hnf
    rcases hf : f.check event kwargs with _ | b | n | s | d
    · exact absurd hf hnn
    · cases b
      · exact absurd hf hnf
      · rw [hf] at htru
        simp [truthy] at htru
    · rw [hf] at htru
      have hn : n = 0 := by simpa [truthy] using htru
      simp [checkLoop, hf, truthy, hn]
    · rw [hf] at htru
      have hs : s = "" := by simpa [truthy] using htru
      simp [checkLoop, hf, truthy, hs]
    · exact absurd hf (hnd d)

/-- Claim C7: the error middleware returns the wrapped call's result when it
returns normally; the skip and cancel flow-control signals are re-raised
unchanged; any other exception is propagated as an `"error"`-category event
through the owning router — a non-`UNHANDLED` propagation result becomes
the middleware's result, and an `UNHANDLED` one re-raises the original
exception. -/
theorem errors_middleware_spec (router : Router) (nxt : NextCall)
    (ev : Val) (data : Dict) :
    (∀ r, nxt ev data = .ok r →
        errorsMiddlewareCall router nxt ev data = .ok r)
    ∧ (nxt ev data = .error .skipSignal →
        errorsMiddlewareCall router nxt ev data = .error .skipSignal)
    ∧ (nxt ev data = .error .cancelSignal →
        errorsMiddlewareCall router nxt ev data = .error .cancelSignal)
    ∧ (∀ e, nxt ev data = .error (.other e) →
        (∀ v, router.propagate_event "error" e data = .ok (.value v) →
          errorsMiddlewareCall router nxt ev data = .ok (.value v))
        ∧ (router.propagate_event "error" e data = .ok .unhandled →
          errorsMiddlewareCall router nxt ev data = .error (.other e))) := by
  refine ⟨?_, ?_, ?_, ?_⟩
  · intro r hr
    simp [errorsMiddlewareCall, hr]
  · intro hr
    simp [errorsMiddlewareCall, hr]
  · intro hr
    simp [errorsMiddlewareCall, hr]
  · intro e he
    constructor
    · intro v hp
      simp [errorsMiddlewareCall, he, hp]
    · intro hp
      simp [errorsMiddlewareCall, he, hp]

/-- Witness for C7: a wrapped call raising a generic exception inside a
router whose error observer answers `"recovered"` yields `"recovered"`. -/
theorem errors_middleware_spec_witness :
    errorsMiddlewareCall errDemoRouter
      (fun _ _ => .error (.other (.pystr "boom"))) demoEvent [] =
      .ok (.value (.pystr "recovered")) := by
  exact ((errors_middleware_spec errDemoRouter
    (fun _ _ => .error (.other (.pystr "boom"))) demoEvent []).2.2.2
    (.pystr "boom") rfl).1 (.pystr "recovered") (by rfl)

/-- The wiring invariant maintained by `include_router`: every sub-router
entry is matched by the child's parent pointer, and no `_sub_routers` list
contains a duplicate. -/
def WiringInv (g : RouterGraph) : Prop :=
  (∀ p c, c ∈ g.subs p → g.parent c = some p) ∧ (∀ p, (g.subs p).Nodup)

/-- One successful `include_router` call preserves the wiring invariant. -/
theorem includeRouter_inv (g g2 : RouterGraph) (p c : Nat)
    (hg : WiringInv g) (h : includeRouter g p c = some g2) : WiringInv g2 := by
  have hpc : g.parent c = none := by
    cases hpar : g.parent c with
    | none => rfl
    | some q => simp [includeRouter, hpar] at h
  simp only [includeRouter, hpc, Option.some.injEq] at h
  subst h
  constructor
  · intro p2 c2 hmem
    simp only at hmem ⊢
    by_cases hp2 : p2 = p
    · subst hp2
      simp only [if_pos rfl] at hmem
      rcases List.mem_append.mp hmem with hin | hin
      · have hpar := hg.1 p2 c2 hin
        have hne : ¬c2 = c := by
          intro hceq
          rw [hceq, hpc] at hpar
          exact absurd hpar (by simp)
        simp [hne, hpar]
      · have hceq : c2 = c := by simpa using hin
        simp [hceq]
    · simp only [if_neg hp2] at hmem
      have hpar := hg.1 p2 c2 hmem
      have hne : ¬c2 = c := by
        intro hceq
        rw [hceq, hpc] at hpar
        exact absurd hpar (by simp)
      simp [hne, hpar]
  · intro p2
    simp only
    by_cases hp2 : p2 = p
    · subst hp2
      rw [if_pos rfl, List.nodup_append]
      refine ⟨hg.2 p2, List.nodup_singleton c, ?_⟩
      intro x hx hxc
      have hxeq : x = c := by simpa using hxc
      subst hxeq
      have hpar := hg.1 p2 x hx
      rw [hpc] at hpar
      exact absurd hpar (by simp)
    · simp only [if_neg hp2]
      exact hg.2 p2

/-- A run of successful `include_router` calls preserves the wiring
invariant. -/
theorem runIncludes_inv (ops : List (Nat × Nat)) (g g2 : RouterGraph)
    (hg : WiringInv g) (h : runIncludes ops g = some g2) : WiringInv g2 := by
  induction ops generalizing g with
  | nil =>
    rw [runIncludes] at h
    cases h
    exact hg
  | cons op rest ih =>
    obtain ⟨p, c⟩ := op
    rw [runIncludes] at h
    cases hstep : includeRouter g p c with
    | none => rw [hstep] at h; exact absurd h (by simp)
    | some g3 =>
      rw [hstep] at h
      exact ih g3 (includeRouter_inv g g3 p c hg hstep) h

/-- Claim C6 (amended): in any wiring state reached by successful
`include_router` calls from freshly constructed routers, a further call
whose child already has a parent raises immediately; every router appears
in at most one parent's `_sub_routers` list, and at most once there (so the
graph contains no diamond and no router has two parents), with the parent
pointer agreeing with the membership.  Cycle-freedom, by contrast, is not
guaranteed — see the counterexample. -/
theorem include_router_spec (ops : List (Nat × Nat)) (g : RouterGraph)
    (h : runIncludes ops RouterGraph.initial = some g) :
    (∀ p c q, g.parent c = some q → includeRouter g p c = none)
    ∧ (∀ p1 p2 c, c ∈ g.subs p1 → c ∈ g.subs p2 → p1 = p2)
    ∧ (∀ p, (g.subs p).Nodup)
    ∧ (∀ p c, c ∈ g.subs p → g.parent c = some p) := by
  have hinv : WiringInv g := by
    refine runIncludes_inv ops RouterGraph.initial g ⟨?_, ?_⟩ h
    · intro p c hc
      exact absurd hc (by simp [RouterGraph.initial])
    · intro p
      simp [RouterGraph.initial]
  refine ⟨?_, ?_, hinv.2, hinv.1⟩
  · intro p c q hq
    rw [includeRouter, hq]
  · intro p1 p2 c h1 h2
    have e1 := hinv.1 p1 c h1
    have e2 := hinv.1 p2 c h2
    exact Option.some_injective _ (e1.symm.trans e2)

/-- Witness for C6 (amended): after `router0.include_router(router1)`,
attaching router 1 under router 2 raises. -/
theorem include_router_spec_witness :
    includeRouter demoGraph 2 1 = none := by
  exact (include_router_spec [(0, 1)] demoGraph (by rfl)).1 2 1 0 (by rfl)

/-- Counterexample to C6 as stated: two successful calls
`router0.include_router(router1)` and `router1.include_router(router0)`
leave a wiring graph in which router 0 is its own ancestor at distance 2 —
a cycle, which the claim asserts can never arise. -/
theorem include_router_cycle_counterexample :
    (runIncludes [(0, 1), (1, 0)] RouterGraph.initial).map
      (fun g => parentIter g 2 0) = some (some 0) := by
  rfl

/-- Witness for C3 (amended): a mapping-returning filter merges `{"x": 1}`
into the kwargs and the handler matches with the merged kwargs. -/
theorem handler_check_spec_witness :
    (handlerConst "x" [filterInject]).check demoEvent [] =
      (true, [("x", .pyint 1)]) := by
  have h1 := (handler_check_spec (handlerConst "x" [filterInject])
    filterInject [] demoEvent []).1
  have h2 := (handler_check_spec (handlerConst "x" [filterInject])
    filterInject [] demoEvent []).2.2.2.1 [("x", .pyint 1)] (by rfl)
  rw [h1]
  show checkLoop [filterInject] demoEvent [] = (true, [("x", .pyint 1)])
  rw [h2]
  rfl

/-- Reading the record of the head key of an association-list storage. -/
theorem getRecord_cons (k0 : StorageKey) (r0 : StorageRecord)
    (rest : MemoryStorage) (k : StorageKey) :
    getRecord ((k0, r0) :: rest) k = if k0 = k then r0 else getRecord rest k := by
  by_cases h : k0 = k
  · simp [getRecord, h]
  · simp [getRecord, h]

/-- Reading a key right after storing a record under it yields that record. -/
theorem getRecord_putRecord_self (s : MemoryStorage) (k : StorageKey)
    (r : StorageRecord) : getRecord (putRecord s k r) k = r := by
  induction s with
  | nil => simp [putRecord, getRecord_cons]
  | cons p rest ih =>
    obtain ⟨k0, r0⟩ := p
    by_cases hk : k0 = k
    · simp [putRecord, hk, getRecord_cons]
    · simp [putRecord, hk, getRecord_cons, ih]

/-- After `FSMContext.clear` the stored state reads back as `None`. -/
theorem clear_get_state (s : MemoryStorage) (k : StorageKey) :
    MemoryStorage.get_state (FSMContext.clear s k) k = none := by
  simp [FSMContext.clear, FSMContext.set_data, FSMContext.set_state,
    MemoryStorage.set_data, MemoryStorage.set_state, MemoryStorage.get_state,
    getRecord_putRecord_self, stateArgToStr]

/-- After `FSMContext.clear` the stored data bag reads back empty. -/
theorem clear_get_data (s : MemoryStorage) (k : StorageKey) :
    MemoryStorage.get_data (FSMContext.clear s k) k = [] := by
  simp [FSMContext.clear, FSMContext.set_data, FSMContext.set_state,
    MemoryStorage.set_data, MemoryStorage.set_state, MemoryStorage.get_data,
    getRecord_putRecord_self]

/-- After deleting a key from the timestamp map, its lookup fails. -/
theorem tlookup_terase (ts : List (StorageKey × ℚ)) (k : StorageKey) :
    tlookup (terase ts k) k = none := by
  induction ts with
  | nil => rfl
  | cons p rest ih =>
    obtain ⟨k0, v0⟩ := p
    by_cases hk : k0 = k
    · have h1 : terase ((k0, v0) :: rest) k = terase rest k := by
        simp [terase, hk]
      rw [h1]; exact ih
    · have h1 : terase ((k0, v0) :: rest) k = (k0, v0) :: terase rest k := by
        simp [terase, hk]
      have h2 : tlookup ((k0, v0) :: terase rest k) k =
          tlookup (terase rest k) k := by
        simp [tlookup, hk]
      rw [h1, h2]; exact ih

/-- Claim C5: setting a `State` object stores its canonical
`"Group:slot"` string, which `get_state` returns; after `clear()` the state
reads `None` and the data bag reads empty, exactly as on a storage that was
never touched. -/
theorem fsm_context_spec (s : MemoryStorage) (k : StorageKey) (S : StateSlot) :
    (FSMContext.get_state (FSMContext.set_state s k (.stateObj S)) k =
        some S.state)
    ∧ (FSMContext.get_state (FSMContext.clear s k) k = none)
    ∧ (FSMContext.get_data (FSMContext.clear s k) k = [])
    ∧ (FSMContext.get_state (FSMContext.clear s k) k =
        FSMContext.get_state [] k)
    ∧ (FSMContext.get_data (FSMContext.clear s k) k =
        FSMContext.get_data [] k) := by
  refine ⟨?_, clear_get_state s k, clear_get_data s k, ?_, ?_⟩
  · simp [FSMContext.set_state, FSMContext.get_state, MemoryStorage.set_state,
      MemoryStorage.get_state, getRecord_putRecord_self, stateArgToStr]
  · show MemoryStorage.get_state (FSMContext.clear s k) k =
        FSMContext.get_state [] k
    rw [clear_get_state s k]; rfl
  · show MemoryStorage.get_data (FSMContext.clear s k) k =
        FSMContext.get_data [] k
    rw [clear_get_data s k]; rfl

/-- Claim C10: `MemoryStorage.close` erases every record — afterwards every
key's state reads `None` and every key's data bag reads empty. -/
theorem memory_storage_close_spec (s : MemoryStorage) (k : StorageKey) :
    MemoryStorage.get_state (MemoryStorage.close s) k = none
    ∧ MemoryStorage.get_data (MemoryStorage.close s) k = [] := by
  exact ⟨rfl, rfl⟩

/-- Claim C4: when a session timeout is configured, a state is stored, and
the tracked last-touch timestamp is older than the timeout, `feed_update`
clears the FSM record and drops the timestamp before handler propagation:
the `current_state` value injected into the handler kwargs is `None`, and
on the storage passed to the handler `get_state` reads `None` and the data
bag reads empty. -/
theorem session_timeout_spec (d : DispatcherFSM) (key : StorageKey)
    (now now2 t ts : ℚ) (st : String)
    (handler : Option String → MemoryStorage → MemoryStorage)
    (htimeout : d.sessionTimeout = some t)
    (hstate : MemoryStorage.get_state d.storage key = some st)
    (hts : tlookup d.fsmTimestamps key = some ts)
    (hexp : now - ts > t) :
    (sessionCheck d key now).2.2 = none
    ∧ MemoryStorage.get_state (sessionCheck d key now).1 key = none
    ∧ MemoryStorage.get_data (sessionCheck d key now).1 key = []
    ∧ tlookup (sessionCheck d key now).2.1 key = none
    ∧ (feedUpdateFSM d key now now2 handler).injectedState = none
    ∧ (feedUpdateFSM d key now now2 handler).storageAtHandler =
        (sessionCheck d key now).1 := by
  have hsc : sessionCheck d key now =
      (FSMContext.clear d.storage key, terase d.fsmTimestamps key, none) := by
    simp [sessionCheck, hstate, htimeout, hts, hexp]
  refine ⟨?_, ?_, ?_, ?_, ?_, ?_⟩
  · rw [hsc]
  · rw [hsc]; exact clear_get_state _ _
  · rw [hsc]; exact clear_get_data _ _
  · rw [hsc]; exact tlookup_terase _ _
  · show (sessionCheck d key now).2.2 = none
    rw [hsc]
  · rfl

/-- Witness for C4: with a 5-unit timeout, a stored state, and a last touch
10 units in the past, the next `feed_update` injects `current_state = None`
and the stored state is gone. -/
theorem session_timeout_spec_witness :
    (sessionCheck demoFSM demoKey 10).2.2 = none
    ∧ MemoryStorage.get_state (sessionCheck demoFSM demoKey 10).1 demoKey =
        none := by
  have h := session_timeout_spec demoFSM demoKey 10 10 5 0 "Form:name"
    (fun _ s2 => s2) rfl rfl rfl (by norm_num)
  exact ⟨h.1, h.2.1⟩

/-- Reading a pre-existing address is unchanged by an allocation. -/
theorem memheap_read_alloc_old (h : MemHeap) (c : Dict) (a : Nat)
    (ha : a < h.cells.length) :
    MemHeap.read (h.alloc c).1 a = MemHeap.read h a := by
  simp [MemHeap.alloc, MemHeap.read, List.getD, List.getElem?_append_left ha]

/-- Reading a freshly allocated address yields the allocated contents. -/
theorem memheap_read_alloc_new (h : MemHeap) (c : Dict) :
    MemHeap.read (h.alloc c).1 (h.alloc c).2 = c := by
  simp [MemHeap.alloc, MemHeap.read, List.getD]

/-- Writing one address leaves every other address unchanged. -/
theorem memheap_read_write_ne (h : MemHeap) (a b : Nat) (c : Dict)
    (hne : a ≠ b) : MemHeap.read (h.write a c) b = MemHeap.read h b := by
  simp [MemHeap.write, MemHeap.read, List.getD, List.getElem?_set_ne hne]

/-- Claim C8: the dict handed out by `get_data` is a copy of the stored bag
(same contents, distinct object), and mutating it leaves the stored bag
unchanged; likewise, after `set_data` the stored bag does not alias the
caller's argument, so mutating the argument afterwards leaves the stored
bag unchanged. -/
theorem storage_data_no_alias (s : DataBagH) (k : String) (v : Val) (a : Nat)
    (hwf : s.dataAddr < s.heap.cells.length) :
    (MemHeap.read (s.get_data).1.heap (s.get_data).2 =
        MemHeap.read s.heap s.dataAddr)
    ∧ (MemHeap.read
        (MemHeap.mutate (s.get_data).1.heap (s.get_data).2 k v) s.dataAddr =
        MemHeap.read s.heap s.dataAddr)
    ∧ (a < s.heap.cells.length →
        MemHeap.read (MemHeap.mutate (s.set_data a).heap a k v)
          (s.set_data a).dataAddr = MemHeap.read s.heap a) := by
  refine ⟨?_, ?_, ?_⟩
  · show MemHeap.read (s.heap.alloc (s.heap.read s.dataAddr)).1
        (s.heap.alloc (s.heap.read s.dataAddr)).2 = MemHeap.read s.heap s.dataAddr
    exact memheap_read_alloc_new _ _
  · have hne : (s.heap.alloc (s.heap.read s.dataAddr)).2 ≠ s.dataAddr := by
      simp [MemHeap.alloc]
      omega
    show MemHeap.read
        (MemHeap.mutate (s.heap.alloc (s.heap.read s.dataAddr)).1
          (s.heap.alloc (s.heap.read s.dataAddr)).2 k v) s.dataAddr =
        MemHeap.read s.heap s.dataAddr
    rw [MemHeap.mutate, memheap_read_write_ne _ _ _ _ hne,
      memheap_read_alloc_old _ _ _ hwf]
  · intro ha
    have hne : a ≠ (s.heap.alloc (s.heap.read a)).2 := by
      simp [MemHeap.alloc]
      omega
    show MemHeap.read
        (MemHeap.mutate (s.heap.alloc (s.heap.read a)).1 a k v)
        (s.heap.alloc (s.heap.read a)).2 = MemHeap.read s.heap a
    rw [MemHeap.mutate, memheap_read_write_ne _ _ _ _ hne,
      memheap_read_alloc_new]

/-- Witness for C8: mutating the copy handed out by `get_data` on the demo
bag leaves the stored contents `{"a": 1}` intact. -/
theorem storage_data_no_alias_witness :
    MemHeap.read
      (MemHeap.mutate (demoBag.get_data).1.heap (demoBag.get_data).2
        "b" (.pyint 2)) demoBag.dataAddr = [("a", .pyint 1)] := by
  exact ((storage_data_no_alias demoBag "b" (.pyint 2) 0
    (by decide)).2.1).trans rfl

/-- Claim C9 (evaluating the code at the failing input): the key derivation
inlined in `Dispatcher.feed_update` ignores the configured `fsm_strategy` —
two dispatchers differing only in strategy derive the same storage key for
the same event — whereas `FSMContextMiddleware._build_key`, which
`feed_update` never invokes, does derive strategy-dependent keys. -/
theorem fsm_strategy_key_divergence :
    (feedUpdateKey ⟨"chat"⟩ "token-1234567890abcdef" "c1" "u1" =
      feedUpdateKey ⟨"global_user"⟩ "token-1234567890abcdef" "c1" "u1")
    ∧ (feedUpdateKey ⟨"chat"⟩ "token-1234567890abcdef" "c1" "u1" =
        some { botId := "token-1234567890", chatId := "c1", userId := "u1" })
    ∧ (buildKey .chat (some "token-1234567890abcdef") (some "c1") (some "u1") =
        some { botId := "token-1234567890", chatId := "c1", userId := "" })
    ∧ (buildKey .globalUser (some "token-1234567890abcdef") (some "c1")
        (some "u1") =
        some { botId := "token-1234567890", chatId := "", userId := "u1" })
    ∧ (buildKey .chat (some "t") (some "c1") (some "u1") ≠
        buildKey .globalUser (some "t") (some "c1") (some "u1")) := by
  refine ⟨by decide, by decide, by decide, by decide, by decide⟩

end VKW
